import Mathlib

/-!
Verification of the control logic of `ivas_xdpuinfer.cpp` (VVAS DPU inference
adapter).  The definitions below are a shallow embedding of the C++ source:
the jansson JSON accessors, the artifact resolver `modelexits`, the label
loader `readlabel`, the model factory `ivas_xinitmodel`, and the four kernel
lifecycle entry points.  File-system access and the out-of-scope model
families are abstracted into an explicit environment.
-/

set_option autoImplicit false

namespace VVAS

/-- JSON values, modelling the jansson `json_t` subset the adapter uses. -/
inductive Json where
  | null
  | bool (b : Bool)
  | int (n : Int)
  | str (s : String)
  | arr (xs : List Json)
  | obj (fields : List (String × Json))

/-- Key lookup in an object's field list (jansson objects have unique keys;
first match). -/
def jlookup : List (String × Json) → String → Option Json
  | [], _ => none
  | (k, v) :: rest, key => if k = key then some v else jlookup rest key

/-- `json_object_get`: returns NULL (`none`) when the key is absent or the
value is not an object. -/
def json_object_get : Json → String → Option Json
  | .obj fields, key => jlookup fields key
  | _, _ => none

/-- `json_is_integer`, tolerating a NULL argument as jansson does. -/
def json_is_integer : Option Json → Bool
  | some (.int _) => true
  | _ => false

/-- `json_is_string`, tolerating a NULL argument. -/
def json_is_string : Option Json → Bool
  | some (.str _) => true
  | _ => false

/-- `json_is_array`, tolerating a NULL argument. -/
def json_is_array : Option Json → Bool
  | some (.arr _) => true
  | _ => false

/-- `json_is_boolean`, tolerating a NULL argument. -/
def json_is_boolean : Option Json → Bool
  | some (.bool _) => true
  | _ => false

/-- `json_integer_value`: 0 for a non-integer argument. -/
def json_integer_value : Option Json → Int
  | some (.int n) => n
  | _ => 0

/-- `json_string_value`: empty for a non-string argument. -/
def json_string_value : Option Json → String
  | some (.str s) => s
  | _ => ""

/-- `json_boolean_value`: false for a non-boolean argument. -/
def json_boolean_value : Option Json → Bool
  | some (.bool b) => b
  | _ => false

/-- `json_array_size`: 0 for a non-array argument. -/
def json_array_size : Json → Nat
  | .arr xs => xs.length
  | _ => 0

/-- `json_array_get`: NULL out of range or for a non-array argument. -/
def json_array_get : Json → Nat → Option Json
  | .arr xs, i => xs[i]?
  | _, _ => none

/-- The C cast `(int)` applied to a `long long` json integer: wrap to the
signed 32-bit range. -/
def toInt32 (n : Int) : Int :=
  (n + 2 ^ 31) % 2 ^ 32 - 2 ^ 31

/-- The C conversion of a `long long` json integer to `unsigned int`:
reduce modulo 2^32. -/
def toUInt32 (n : Int) : Nat :=
  (n % 2 ^ 32).toNat

/-- The `labels` record: `{label, name, display_name}`. -/
structure labels where
  label : Int
  name : String
  display_name : String

/-- A `labels` slot as produced by `calloc`: all fields zero. -/
def labelsZero : labels := ⟨0, "", ""⟩

/-- `IVASVideoFormat` (the three values the adapter distinguishes). -/
inductive IVASVideoFormat where
  | IVAS_VMFT_UNKNOWN
  | IVAS_VFMT_RGB8
  | IVAS_VFMT_BGR8
deriving DecidableEq

export IVASVideoFormat (IVAS_VMFT_UNKNOWN IVAS_VFMT_RGB8 IVAS_VFMT_BGR8)

/-- `ivas_fmt_to_xfmt`: `strncmp(name, prefixStr, 3) == 0`, i.e. the first
three characters match (a shorter `name` differs at its terminator, so it
compares unequal, exactly as the character-list comparison does). -/
def ivas_fmt_to_xfmt (name : String) : IVASVideoFormat :=
  if name.toList.take 3 = "RGB".toList then IVAS_VFMT_RGB8
  else if name.toList.take 3 = "BGR".toList then IVAS_VFMT_BGR8
  else IVAS_VMFT_UNKNOWN

/-- `IVAS_XCLASS_NOTFOUND` sentinel for an unrecognized model class. -/
def IVAS_XCLASS_NOTFOUND : Int := -1

/-- Modelled from the spec: the `ivas_xmodelclass` name table lives in the
missing header `ivas_xdpumodels.hpp`; the spec names the model families
(classification, detection, re-identification, ...) and the source's
conditional blocks enumerate these eight classes in this order. -/
def ivas_xmodelclass : List String :=
  ["CLASSIFICATION", "YOLOV3", "FACEDETECT", "REID",
   "SSD", "REFINEDET", "TFSSD", "YOLOV2"]

/-- `ivas_xclass_to_num`: index of the first matching class name, or the
not-found sentinel. -/
def ivas_xclass_to_num (name : String) : Int :=
  match ivas_xmodelclass.indexOf? name with
  | some i => (i : Int)
  | none => IVAS_XCLASS_NOTFOUND

/-- Modelled from the spec: the factory's `switch` dispatches on the class
tag; with every family enabled the eight enumerated classes construct and
the `default` branch fails (UnsupportedModelClass). -/
def supportedClass (c : Int) : Bool :=
  0 ≤ c && c < 8

/-- The `ivas_perf` telemetry block. -/
structure ivas_perf where
  test_started : Bool
  frames : Nat
  timer_start : Int
  last_displayed_time : Int
  last_displayed_frame : Nat

/-- `ivas_perf` after `calloc` / after the deinit reset: all fields zero. -/
def perfZero : ivas_perf := ⟨false, 0, 0, 0, 0⟩

/-- A constructed model instance (`ivas_xdpumodel *`).  The numeric id is
the allocation order, so that pointer identity is expressible. -/
structure ModelInst where
  id : Nat
deriving DecidableEq

/-- One runtime-cache entry (`struct model_list`). -/
structure model_list where
  modelclass : Int
  modelname : String
  model : ModelInst
  labelptr : Option (List labels)

/-- The adapter's private state `struct ivas_xkpriv`.  `nextId` is the
ghost allocation counter backing `ModelInst` identity. -/
structure ivas_xkpriv where
  log_level : Int
  run_time_model : Bool
  performance_test : Bool
  need_preprocess : Bool
  modelfmt : IVASVideoFormat
  modelpath : String
  modelname : String
  modelclass : Int
  elfname : String
  max_labels : Nat
  labelptr : Option (List labels)
  label_required : Bool
  label_not_found : Bool
  model : Option ModelInst
  mlist : List model_list
  pf : ivas_perf
  nextId : Nat

/-- `ivas_xkpriv` as `calloc` leaves it. -/
def kprivZero : ivas_xkpriv where
  log_level := 0
  run_time_model := false
  performance_test := false
  need_preprocess := false
  modelfmt := IVAS_VMFT_UNKNOWN
  modelpath := ""
  modelname := ""
  modelclass := 0
  elfname := ""
  max_labels := 0
  labelptr := none
  label_required := false
  label_not_found := false
  model := none
  mlist := []
  pf := perfZero
  nextId := 0

/-- The environment abstracting the adapter's external collaborators:
`fs` is the `fileexists`/`stat` oracle, `loadJson` is `json_load_file`
(syntax-level JSON parsing is out of scope), and `labelRequired` is the
label-requirement flag the out-of-scope model constructors set for their
class (modelled from the spec's factory description). -/
structure Env where
  fs : String → Bool
  loadJson : String → Option Json
  labelRequired : Int → Bool

/-- `modelexits`: resolve the on-disk artifact for `kpriv`'s model path and
name.  Returns the chosen path (empty string = failure) together with the
number of `fileexists` probes performed. -/
def modelexits (fs : String → Bool) (kpriv : ivas_xkpriv) : String × Nat :=
  let elf_name :=
    kpriv.modelpath ++ "/" ++ kpriv.modelname ++ "/" ++ kpriv.modelname ++ ".elf"
  let xmodel_name :=
    kpriv.modelpath ++ "/" ++ kpriv.modelname ++ "/" ++ kpriv.modelname ++ ".xmodel"
  let prototxt_name :=
    kpriv.modelpath ++ "/" ++ kpriv.modelname ++ "/" ++ kpriv.modelname ++ ".prototxt"
  if ¬ fs prototxt_name then ("", 1)
  else if fs xmodel_name then (xmodel_name, 2)
  else if fs elf_name then (elf_name, 3)
  else ("", 3)

/-- Result of `readlabel`: a successfully built table, the NULL-returning
error path, or the undefined behaviour of the unchecked write
`labelptr + index` landing outside the `calloc`'d block of `size` slots. -/
inductive ReadLabelRes where
  | ok (table : List labels)
  | err
  | oob (index : Int) (size : Nat)

/-- The entry loop of `readlabel`: `index` is the current array position,
`r` the remaining iteration count, `tbl` the allocated table.  Mirrors the
C loop body: fetch the entry, require an integer `label`, write the
`label` field at the index it names (unchecked in C — an out-of-range
index is an out-of-bounds write), then require `name` and `display_name`
strings. -/
def readlabelLoop (karray : Json) (nl : Nat) : Nat → Nat → List labels → ReadLabelRes
  | _, 0, tbl => .ok tbl
  | index, r + 1, tbl =>
    match json_array_get karray index with
    | none => .err
    | some label =>
      let v := json_object_get label "label"
      if ¬ json_is_integer v then .err
      else
        let idx := toInt32 (json_integer_value v)
        if idx < 0 ∨ (nl : Int) ≤ idx then .oob idx nl
        else
          let i := idx.toNat
          let t1 := tbl.set i { tbl.getD i labelsZero with label := idx }
          let nv := json_object_get label "name"
          if ¬ json_is_string nv then .err
          else
            let t2 := t1.set i { t1.getD i labelsZero with name := json_string_value nv }
            let dv := json_object_get label "display_name"
            if ¬ json_is_string dv then .err
            else
              let t3 := t2.set i
                { t2.getD i labelsZero with display_name := json_string_value dv }
              readlabelLoop karray nl (index + 1) r t3

/-- `readlabel`: build the label table from the loaded JSON root (`none`
models a `json_load_file` failure).  Returns the updated `kpriv` — the
`max_labels` assignment happens as soon as the count parses — and the
parse result. -/
def readlabel (kpriv : ivas_xkpriv) : Option Json → ivas_xkpriv × ReadLabelRes
  | none => (kpriv, .err)
  | some root =>
    let v := json_object_get root "num-labels"
    if ¬ json_is_integer v then (kpriv, .err)
    else
      let num_labels := toUInt32 (json_integer_value v)
      let labelptr := List.replicate num_labels labelsZero
      let kpriv := { kpriv with max_labels := num_labels }
      match json_object_get root "labels" with
      | none => (kpriv, .err)
      | some karray =>
        if ¬ json_is_array (some karray) then (kpriv, .err)
        else if num_labels ≠ json_array_size karray then (kpriv, .err)
        else (kpriv, readlabelLoop karray num_labels 0 num_labels labelptr)

/-- Result of `ivas_xinitmodel`: the constructed instance, the NULL
failure path, or propagated undefined behaviour from `readlabel`. -/
inductive InitModelRes where
  | ok (m : ModelInst)
  | fail
  | ub

/-- Output bundle of `ivas_xinitmodel`: updated state, result, number of
label-file parses, number of disk-existence probes. -/
structure InitModelOut where
  kpriv : ivas_xkpriv
  res : InitModelRes
  labelParses : Nat
  diskChecks : Nat

/-- The dispatch and label-requirement check of `ivas_xinitmodel` that
follow the label load: the class-tag `switch` (unknown class fails) and
— modelled from the spec's factory description, since the constructors
that set `kpriv->labelflags` are out of scope — the rollback when the
class requires labels and none were loaded.  The rollback branch of the C
code resets the *active* model pointer and the class tag, exactly as
embedded here. -/
def ivas_xinitmodelTail (env : Env) (kpriv : ivas_xkpriv) (modelclass : Int)
    (parses : Nat) : InitModelOut :=
  if ¬ supportedClass modelclass then ⟨kpriv, .fail, parses, 1⟩
  else
    let m : ModelInst := ⟨kpriv.nextId⟩
    let kpriv := { kpriv with nextId := kpriv.nextId + 1,
                              label_required := env.labelRequired modelclass,
                              label_not_found := kpriv.labelptr.isNone }
    if kpriv.label_required ∧ kpriv.label_not_found then
      ⟨{ kpriv with model := none, modelclass := IVAS_XCLASS_NOTFOUND,
                    labelptr := none }, .fail, parses, 1⟩
    else ⟨kpriv, .ok m, parses, 1⟩

/-- `ivas_xinitmodel`: clear the label state, load `label.json` when it
exists on disk, then dispatch through `ivas_xinitmodelTail` (the fresh
instance id is the ghost allocation counter). -/
def ivas_xinitmodel (env : Env) (kpriv : ivas_xkpriv) (modelclass : Int) :
    InitModelOut :=
  let kpriv := { kpriv with labelptr := none,
                            label_required := false, label_not_found := false }
  let labelfile := kpriv.modelpath ++ "/" ++ kpriv.modelname ++ "/" ++ "label.json"
  if env.fs labelfile then
    let lr := readlabel kpriv (env.loadJson labelfile)
    match lr.2 with
    | .oob _ _ => ⟨lr.1, .ub, 1, 1⟩
    | .ok t => ivas_xinitmodelTail env { lr.1 with labelptr := some t } modelclass 1
    | .err => ivas_xinitmodelTail env { lr.1 with labelptr := none } modelclass 1
  else
    ivas_xinitmodelTail env kpriv modelclass 0

/-- Per-frame runtime-selection metadata (`GstIvasInpInferMeta`). -/
structure InpMeta where
  ml_class : Int
  model_name : String

/-- One input frame together with the external outcomes the adapter
observes for it: the attached selection metadata (runtime mode), whether
`gst_buffer_add_meta` succeeded, and the model-run result (the model
families are out of scope). -/
structure Frame where
  fmt : IVASVideoFormat
  width : Nat
  height : Nat
  meta : Option InpMeta
  addMetaOk : Bool
  runOk : Bool

/-- Output bundle of `xlnx_kernel_start`: the per-frame status, the count
of disk-existence probes and label-file parses this frame triggered, the
rolling throughput line printed (value and decimal count), and whether
undefined behaviour was reached. -/
structure StartOut where
  status : Int
  diskChecks : Nat
  labelParses : Nat
  printed : Option (ℚ × Nat)
  ub : Bool

/-- Telemetry update at the end of `xlnx_kernel_start` (the C code reads
the clock twice: `tB` for the threshold comparison, `tC` for the elapsed
computation).  Increments the frame counter, then prints a rolling
throughput line once a second. -/
def perf_update (tB tC : Int) (performance_test : Bool) (pf : ivas_perf) :
    ivas_perf × Option (ℚ × Nat) :=
  if performance_test ∧ pf.test_started then
    let pf := { pf with frames := pf.frames + 1 }
    if tB - pf.last_displayed_time ≥ 1000000 then
      let current_time := tC
      let time : ℚ := ((current_time - pf.last_displayed_time : Int) : ℚ) / 1000000
      let fps : ℚ :=
        if time > 0 then ((pf.frames : ℚ) - (pf.last_displayed_frame : ℚ)) / time
        else 99999 / 100
      let pf := { pf with last_displayed_time := current_time,
                          last_displayed_frame := pf.frames }
      (pf, some (fps, if fps < 9995 / 1000 then 3 else 2))
    else (pf, none)
  else (pf, none)

/-- The tail of `xlnx_kernel_start` after the runtime-selection phase:
attach the inference meta, check the frame's pixel format, start the
telemetry clock on the first frame (`tA`), run the model, and update
telemetry. -/
def startRest (tA tB tC : Int) (frame : Frame) (kpriv : ivas_xkpriv)
    (checks parses : Nat) : ivas_xkpriv × StartOut :=
  if ¬ frame.addMetaOk then (kpriv, ⟨-1, checks, parses, none, false⟩)
  else if frame.fmt ≠ IVAS_VFMT_BGR8 ∧ frame.fmt ≠ IVAS_VFMT_RGB8 then
    (kpriv, ⟨-1, checks, parses, none, false⟩)
  else
    let pf := kpriv.pf
    let pf :=
      if kpriv.performance_test ∧ ¬ pf.test_started then
        { pf with timer_start := tA, last_displayed_time := tA, test_started := true }
      else pf
    let ret : Int := if frame.runOk then 1 else -1
    let pp := perf_update tB tC kpriv.performance_test pf
    ({ kpriv with pf := pp.1 }, ⟨ret, checks, parses, pp.2, false⟩)

/-- The runtime-cache lookup loop: first entry matching both the class tag
and the model name. -/
def mlistFind (l : List model_list) (c : Int) (n : String) : Option model_list :=
  l.find? fun e => e.modelclass = c ∧ e.modelname = n

/-- `xlnx_kernel_start`: in runtime mode read the selection metadata,
resolve the artifact on disk, consult the cache (hit: reuse the entry;
miss: construct through the factory and append), then process the frame
through `startRest`. -/
def xlnx_kernel_start (env : Env) (tA tB tC : Int) (frame : Frame)
    (kpriv : ivas_xkpriv) : ivas_xkpriv × StartOut :=
  if kpriv.run_time_model then
    match frame.meta with
    | none => (kpriv, ⟨-1, 0, 0, none, false⟩)
    | some meta =>
      let kpriv := { kpriv with modelclass := meta.ml_class,
                                modelname := meta.model_name }
      let mx := modelexits env.fs kpriv
      let kpriv := { kpriv with elfname := mx.1 }
      if kpriv.elfname = "" then (kpriv, ⟨-1, mx.2, 0, none, false⟩)
      else
        match mlistFind kpriv.mlist meta.ml_class meta.model_name with
        | some entry =>
          let kpriv := { kpriv with model := some entry.model,
                                    labelptr := entry.labelptr }
          startRest tA tB tC frame kpriv mx.2 0
        | none =>
          let o := ivas_xinitmodel env kpriv meta.ml_class
          match o.res with
          | .ub => (o.kpriv, ⟨-1, mx.2 + o.diskChecks, o.labelParses, none, true⟩)
          | .fail => (o.kpriv, ⟨-1, mx.2 + o.diskChecks, o.labelParses, none, false⟩)
          | .ok m =>
            let kpriv :=
              { o.kpriv with
                model := some m,
                mlist := o.kpriv.mlist ++
                  [⟨meta.ml_class, meta.model_name, m, o.kpriv.labelptr⟩] }
            startRest tA tB tC frame kpriv (mx.2 + o.diskChecks) o.labelParses
  else
    startRest tA tB tC frame kpriv 0 0

/-- Output of `xlnx_kernel_deinit`: the status, the handle's private state
after the call (the C code frees it), the final throughput line printed,
and the telemetry block as the reset at lines 703–707 leaves it (observed
just before the context is freed). -/
structure DeinitOut where
  status : Bool
  kernel_priv : Option ivas_xkpriv
  printed : Option (ℚ × Nat)
  pf_after_reset : Option ivas_perf

/-- `xlnx_kernel_deinit`: NULL private state returns success immediately
with no effect; otherwise print the final report when telemetry ran,
reset every counter, tear down, and free the context. -/
def xlnx_kernel_deinit (now : Int) (st : Option ivas_xkpriv) : DeinitOut :=
  match st with
  | none => ⟨true, none, none, none⟩
  | some kpriv =>
    let pf := kpriv.pf
    let printed :=
      if kpriv.performance_test ∧ pf.test_started then
        let time : ℚ := ((now - pf.timer_start : Int) : ℚ) / 1000000
        let fps : ℚ := if time > 0 then (pf.frames : ℚ) / time else 99999 / 100
        some (fps, if fps < 9995 / 1000 then 3 else 2)
      else none
    ⟨true, none, printed, some perfZero⟩

/-- Result of `xlnx_kernel_init`. -/
inductive KInitRes where
  | ok (kpriv : ivas_xkpriv)
  | fail
  | ub

/-- Whether init succeeded. -/
def KInitRes.isOk : KInitRes → Bool
  | .ok _ => true
  | _ => false

/-- The model format the successfully initialized context carries. -/
def KInitRes.fmtOf : KInitRes → Option IVASVideoFormat
  | .ok k => some k.modelfmt
  | _ => none

/-- The pixel-format branch of `xlnx_kernel_init`: a non-string (or
missing) `model-format` value falls back to BGR with a warning; a string
value goes through `ivas_fmt_to_xfmt`. -/
def parse_model_format (val : Option Json) : IVASVideoFormat :=
  if ¬ json_is_string val then IVAS_VFMT_BGR8
  else ivas_fmt_to_xfmt (json_string_value val)

/-- `LOG_LEVEL_WARNING`, the default verbosity. -/
def LOG_LEVEL_WARNING : Int := 2

/-- `xlnx_kernel_init`: parse the configuration keys with their defaults,
validate the model format and path, and in static mode resolve and build
the one model through the factory. -/
def xlnx_kernel_init (env : Env) (jconfig : Json) : KInitRes :=
  let kpriv := kprivZero
  let dl := json_object_get jconfig "debug_level"
  let log_level :=
    if ¬ json_is_integer dl then LOG_LEVEL_WARNING else json_integer_value dl
  let kpriv := { kpriv with log_level := log_level }
  let rt := json_object_get jconfig "run_time_model"
  let run_time_model :=
    if ¬ json_is_boolean rt then false else json_boolean_value rt
  let kpriv := { kpriv with run_time_model := run_time_model }
  let pt := json_object_get jconfig "performance_test"
  let perf :=
    if ¬ json_is_boolean pt then false else json_boolean_value pt
  let kpriv := { kpriv with performance_test := perf }
  let np := json_object_get jconfig "need_preprocess"
  let need_preprocess :=
    if ¬ json_is_boolean np then true else json_boolean_value np
  let kpriv := { kpriv with need_preprocess := need_preprocess }
  let modelfmt := parse_model_format (json_object_get jconfig "model-format")
  let kpriv := { kpriv with modelfmt := modelfmt }
  if kpriv.modelfmt = IVAS_VMFT_UNKNOWN then .fail
  else
    let mp := json_object_get jconfig "model-path"
    let modelpath :=
      if ¬ json_is_string mp then "/usr/share/vitis_ai_library/models/"
      else json_string_value mp
    let kpriv := { kpriv with modelpath := modelpath }
    if ¬ env.fs kpriv.modelpath then .fail
    else if kpriv.run_time_model then .ok kpriv
    else
      let mc := json_object_get jconfig "model-class"
      if ¬ json_is_string mc then .fail
      else
        let modelclass := ivas_xclass_to_num (json_string_value mc)
        let kpriv := { kpriv with modelclass := modelclass }
        if kpriv.modelclass = IVAS_XCLASS_NOTFOUND then .fail
        else
          let mn := json_object_get jconfig "model-name"
          if ¬ json_is_string mn then .fail
          else
            let kpriv := { kpriv with modelname := json_string_value mn }
            let mx := modelexits env.fs kpriv
            let kpriv := { kpriv with elfname := mx.1 }
            if kpriv.elfname = "" then .fail
            else
              let o := ivas_xinitmodel env kpriv kpriv.modelclass
              match o.res with
              | .ub => .ub
              | .fail => .fail
              | .ok m => .ok { o.kpriv with model := some m }

/-- `xlnx_kernel_done`: a pure liveness no-op. -/
def xlnx_kernel_done (_kpriv : ivas_xkpriv) : Bool := true

/-- The three artifact paths `modelexits` probes, as the source builds
them. -/
def prototxt_path (kpriv : ivas_xkpriv) : String :=
  kpriv.modelpath ++ "/" ++ kpriv.modelname ++ "/" ++ kpriv.modelname ++ ".prototxt"

/-- Path of the `.xmodel` artifact. -/
def xmodel_path (kpriv : ivas_xkpriv) : String :=
  kpriv.modelpath ++ "/" ++ kpriv.modelname ++ "/" ++ kpriv.modelname ++ ".xmodel"

/-- Path of the `.elf` artifact. -/
def elf_path (kpriv : ivas_xkpriv) : String :=
  kpriv.modelpath ++ "/" ++ kpriv.modelname ++ "/" ++ kpriv.modelname ++ ".elf"

/-- The runtime cache holds at most one entry per distinct
`(classId, name)` pair. -/
def distinctKeys (l : List model_list) : Prop :=
  l.Pairwise fun a b => ¬ (a.modelclass = b.modelclass ∧ a.modelname = b.modelname)

/-- The arguments of one `xlnx_kernel_start` invocation. -/
structure StartCall where
  tA : Int
  tB : Int
  tC : Int
  frame : Frame

/-- A sequence of `xlnx_kernel_start` calls threaded through the
context. -/
def startSeq (env : Env) : List StartCall → ivas_xkpriv → ivas_xkpriv
  | [], kpriv => kpriv
  | c :: rest, kpriv =>
    startSeq env rest (xlnx_kernel_start env c.tA c.tB c.tC c.frame kpriv).1

/-! Concrete fixtures used by witnesses and counterexamples. -/

/-- A context pointing at model directory `/m/n`. -/
def kpriv0 : ivas_xkpriv := { kprivZero with modelpath := "/m", modelname := "n" }

/-- A file system holding all three artifacts of `/m/n`. -/
def fsAll : String → Bool := fun s =>
  s == "/m/n/n.prototxt" || s == "/m/n/n.xmodel" || s == "/m/n/n.elf"

/-- Label resource declaring one label whose entry names index 5. -/
def c4root : Json :=
  .obj [("num-labels", .int 1),
        ("labels", .arr [.obj [("label", .int 5), ("name", .str "a"),
                               ("display_name", .str "A")]])]

/-- Label resource whose single entry carries empty name strings. -/
def c5root : Json :=
  .obj [("num-labels", .int 1),
        ("labels", .arr [.obj [("label", .int 0), ("name", .str ""),
                               ("display_name", .str "")]])]

/-- A well-formed single-entry label resource. -/
def c5ok : Json :=
  .obj [("num-labels", .int 1),
        ("labels", .arr [.obj [("label", .int 0), ("name", .str "cat"),
                               ("display_name", .str "Cat")]])]

/-- Label resource with a declared count but no `labels` key. -/
def c10root : Json := .obj [("num-labels", .int 3)]

/-- Environment for the cache-hit scenario: `/m/n` has prototxt and
xmodel, no label file. -/
def envH : Env where
  fs := fun s => s == "/m/n/n.prototxt" || s == "/m/n/n.xmodel"
  loadJson := fun _ => none
  labelRequired := fun _ => false

/-- Runtime-mode context whose cache already holds `(0, "n")`. -/
def kprivH : ivas_xkpriv :=
  { kprivZero with
    run_time_model := true
    modelpath := "/m"
    mlist := [⟨0, "n", ⟨0⟩, none⟩]
    nextId := 1 }

/-- A frame requesting the cached pair `(0, "n")`. -/
def frameH : Frame :=
  { fmt := IVAS_VFMT_BGR8, width := 1, height := 1
    meta := some ⟨0, "n"⟩, addMetaOk := true, runOk := true }

/-- Static-mode context with telemetry running and five frames counted. -/
def kprivP : ivas_xkpriv :=
  { kprivZero with
    performance_test := true
    pf := { test_started := true, frames := 5, timer_start := 0,
            last_displayed_time := 0, last_displayed_frame := 0 } }

/-- A frame whose model run reports failure. -/
def frameF : Frame :=
  { fmt := IVAS_VFMT_BGR8, width := 1, height := 1
    meta := none, addMetaOk := true, runOk := false }

/-- Telemetry context whose start timestamp equals the teardown clock
(zero elapsed time). -/
def kprivD : ivas_xkpriv :=
  { kprivP with pf := { kprivP.pf with timer_start := 7 } }

/-- Environment whose file system holds only the directory `/m`. -/
def c6env : Env where
  fs := fun s => s == "/m"
  loadJson := fun _ => none
  labelRequired := fun _ => false

/-- Runtime-mode configuration with no `model-format` key. -/
def c6config : Json :=
  .obj [("run_time_model", .bool true), ("model-path", .str "/m")]

/-- Configuration whose `model-format` string names no supported
format. -/
def c6bad : Json :=
  .obj [("run_time_model", .bool true), ("model-path", .str "/m"),
        ("model-format", .str "NV12")]

/-- A started telemetry block at the display threshold. -/
def pfStarted : ivas_perf :=
  { test_started := true, frames := 0, timer_start := 0,
    last_displayed_time := 0, last_displayed_frame := 0 }

/-- C3: artifact resolution fails (empty result) when the prototxt is
missing; with the prototxt present it returns the `.xmodel` path whenever
that file exists (regardless of the `.elf`), the `.elf` path when only
the `.elf` exists, and fails when neither exists. -/
theorem modelexits_artifact_resolution (fs : String → Bool) (kpriv : ivas_xkpriv) :
    (fs (prototxt_path kpriv) = false → (modelexits fs kpriv).1 = "")
    ∧ (fs (prototxt_path kpriv) = true → fs (xmodel_path kpriv) = true →
        (modelexits fs kpriv).1 = xmodel_path kpriv)
    ∧ (fs (prototxt_path kpriv) = true → fs (xmodel_path kpriv) = false →
        fs (elf_path kpriv) = true → (modelexits fs kpriv).1 = elf_path kpriv)
    ∧ (fs (prototxt_path kpriv) = true → fs (xmodel_path kpriv) = false →
        fs (elf_path kpriv) = false → (modelexits fs kpriv).1 = "") := by
  refine ⟨fun h1 => ?_, fun h1 h2 => ?_, fun h1 h2 h3 => ?_, fun h1 h2 h3 => ?_⟩ <;>
    simp only [modelexits, prototxt_path, xmodel_path, elf_path] at * <;>
    simp [h1, *]

/-- C3 witness: with all three artifacts of `/m/n` on disk, resolution
returns the `.xmodel` path. -/
theorem modelexits_artifact_resolution_witness :
    fsAll (prototxt_path kpriv0) = true ∧ fsAll (xmodel_path kpriv0) = true ∧
    (modelexits fsAll kpriv0).1 = xmodel_path kpriv0 :=
  ⟨rfl, rfl, (modelexits_artifact_resolution fsAll kpriv0).2.1 rfl rfl⟩

/-- C4 (code bug): a label resource declaring one label whose entry names
index 5 does not fail validation — `readlabel` performs the unchecked
write `labelptr + 5` into a one-slot allocation, an out-of-bounds store,
instead of returning the error result. -/
theorem readlabel_unchecked_index_write :
    (readlabel kpriv0 (some c4root)).2 = .oob 5 1 ∧ ¬ ((0 : Int) ≤ 5 ∧ (5 : Int) < 1) :=
  ⟨rfl, by decide⟩

/-- C5 counterexample: a label entry with empty `name` and `display_name`
strings passes `readlabel` — the code checks only that both values are
strings, so the parse succeeds where the claim requires failure. -/
theorem readlabel_empty_names_accepted :
    (readlabel kpriv0 (some c5root)).2 = .ok [⟨0, "", ""⟩]
    ∧ ("" : String).length = 0 :=
  ⟨rfl, rfl⟩

/-- If the entry loop of `readlabel` succeeds, the table length is
preserved and every processed entry passed the per-entry checks: an
integer `label`, a string `name`, a string `display_name`. -/
theorem readlabelLoop_ok_spec (karray : Json) (nl : Nat) :
    ∀ (r index : Nat) (tbl t : List labels),
      readlabelLoop karray nl index r tbl = .ok t →
      t.length = tbl.length
      ∧ ∀ i : Nat, index ≤ i → i < index + r →
          ∃ e, json_array_get karray i = some e
            ∧ json_is_integer (json_object_get e "label") = true
            ∧ json_is_string (json_object_get e "name") = true
            ∧ json_is_string (json_object_get e "display_name") = true := by
  intro r
  induction r with
  | zero =>
    intro index tbl t h
    simp only [readlabelLoop] at h
    cases h
    exact ⟨rfl, fun i hge hlt => absurd hlt (by omega)⟩
  | succ r ih =>
    intro index tbl t h
    rw [readlabelLoop] at h
    cases hg : json_array_get karray index with
    | none =>
      rw [hg] at h
      exact absurd h (by simp)
    | some label =>
      rw [hg] at h
      dsimp only at h
      by_cases hint : json_is_integer (json_object_get label "label") = true
      · rw [if_neg (not_not_intro hint)] at h
        by_cases hoob : toInt32 (json_integer_value (json_object_get label "label")) < 0
            ∨ (nl : Int) ≤ toInt32 (json_integer_value (json_object_get label "label"))
        · rw [if_pos hoob] at h
          exact absurd h (by simp)
        · rw [if_neg hoob] at h
          by_cases hname : json_is_string (json_object_get label "name") = true
          · rw [if_neg (not_not_intro hname)] at h
            by_cases hdisp : json_is_string (json_object_get label "display_name") = true
            · rw [if_neg (not_not_intro hdisp)] at h
              obtain ⟨hlen, hrest⟩ := ih (index + 1) _ t h
              refine ⟨?_, ?_⟩
              · rw [hlen]
                simp
              · intro i hge hlt
                rcases Nat.eq_or_lt_of_le hge with heq | hgt
                · subst heq
                  exact ⟨label, hg, hint, hname, hdisp⟩
                · exact hrest i hgt (by omega)
            · rw [if_pos hdisp] at h
              exact absurd h (by simp)
          · rw [if_pos hname] at h
            exact absurd h (by simp)
      · rw [if_pos hint] at h
        exact absurd h (by simp)

/-- C5 (amended): `readlabel` succeeds only when the declared count is
present and integral, the `labels` value exists and is an array whose
length equals the declared count, and every entry carries an integer
index and string `name` and `display_name` values — the code does not
require the strings to be non-empty; on success, the parsed table's
length equals the declared count. -/
theorem readlabel_success_conditions (kpriv : ivas_xkpriv) (root : Json)
    (t : List labels)
    (h : (readlabel kpriv (some root)).2 = .ok t) :
    json_is_integer (json_object_get root "num-labels") = true
    ∧ ∃ karray, json_object_get root "labels" = some karray
      ∧ json_is_array (some karray) = true
      ∧ json_array_size karray =
          toUInt32 (json_integer_value (json_object_get root "num-labels"))
      ∧ t.length =
          toUInt32 (json_integer_value (json_object_get root "num-labels"))
      ∧ ∀ i : Nat, i < json_array_size karray →
          ∃ e, json_array_get karray i = some e
            ∧ json_is_integer (json_object_get e "label") = true
            ∧ json_is_string (json_object_get e "name") = true
            ∧ json_is_string (json_object_get e "display_name") = true := by
  simp only [readlabel] at h
  by_cases h1 : json_is_integer (json_object_get root "num-labels") = true
  · rw [if_neg (not_not_intro h1)] at h
    refine ⟨h1, ?_⟩
    cases hk : json_object_get root "labels" with
    | none =>
      rw [hk] at h
      exact absurd h (by simp)
    | some karray =>
      rw [hk] at h
      dsimp only at h
      by_cases h2 : json_is_array (some karray) = true
      · rw [if_neg (not_not_intro h2)] at h
        by_cases h3 : toUInt32 (json_integer_value (json_object_get root "num-labels"))
            ≠ json_array_size karray
        · rw [if_pos h3] at h
          exact absurd h (by simp)
        · rw [if_neg h3] at h
          dsimp only at h
          rw [not_ne_iff] at h3
          obtain ⟨hlen, hrest⟩ := readlabelLoop_ok_spec karray _ _ 0 _ t h
          refine ⟨karray, rfl, h2, h3.symm, ?_, ?_⟩
          · rw [hlen, List.length_replicate]
          · intro i hi
            rw [← h3] at hi
            exact hrest i (Nat.zero_le i) (by omega)
      · rw [if_pos h2] at h
        exact absurd h (by simp)
  · rw [if_pos h1] at h
    exact absurd h (by simp)

/-- C5 witness (amended): a well-formed single-entry resource parses to a
one-entry table satisfying every condition. -/
theorem readlabel_success_conditions_witness :
    json_is_integer (json_object_get c5ok "num-labels") = true
    ∧ ∃ karray, json_object_get c5ok "labels" = some karray
      ∧ json_is_array (some karray) = true
      ∧ json_array_size karray =
          toUInt32 (json_integer_value (json_object_get c5ok "num-labels"))
      ∧ ([(⟨0, "cat", "Cat"⟩ : labels)]).length =
          toUInt32 (json_integer_value (json_object_get c5ok "num-labels"))
      ∧ ∀ i : Nat, i < json_array_size karray →
          ∃ e, json_array_get karray i = some e
            ∧ json_is_integer (json_object_get e "label") = true
            ∧ json_is_string (json_object_get e "name") = true
            ∧ json_is_string (json_object_get e "display_name") = true :=
  readlabel_success_conditions kpriv0 c5ok [⟨0, "cat", "Cat"⟩] rfl

/-- C6 counterexample: a configuration with no `model-format` key still
initializes successfully, with the pixel format silently defaulted to
BGR. -/
theorem init_missing_model_format_succeeds :
    json_object_get c6config "model-format" = none
    ∧ (xlnx_kernel_init c6env c6config).isOk = true
    ∧ (xlnx_kernel_init c6env c6config).fmtOf = some IVAS_VFMT_BGR8 :=
  ⟨rfl, rfl, rfl⟩

/-- C6 (amended): a missing or non-string `model-format` value falls back
to the BGR default instead of failing; initialization fails only when the
value is a string naming an unsupported format. -/
theorem model_format_default_and_failure (env : Env) (j : Json) :
    (json_is_string (json_object_get j "model-format") = false →
      parse_model_format (json_object_get j "model-format") = IVAS_VFMT_BGR8)
    ∧ (∀ s, json_object_get j "model-format" = some (.str s) →
        ivas_fmt_to_xfmt s = IVAS_VMFT_UNKNOWN →
        xlnx_kernel_init env j = .fail) := by
  constructor
  · intro h
    simp [parse_model_format, h]
  · intro s hs hu
    simp [xlnx_kernel_init, parse_model_format, hs, json_is_string,
      json_string_value, hu]

/-- C6 witness: the format string "NV12" is unsupported and makes init
fail, while the configuration with no `model-format` key parses to the
BGR default. -/
theorem model_format_default_and_failure_witness :
    xlnx_kernel_init c6env c6bad = .fail
    ∧ parse_model_format (json_object_get c6config "model-format") = IVAS_VFMT_BGR8 :=
  ⟨(model_format_default_and_failure c6env c6bad).2 "NV12" rfl (by decide),
   (model_format_default_and_failure c6env c6config).1 rfl⟩

/-- C9: `deinit` on a handle whose private state is NULL performs no
teardown, changes nothing, and returns success. -/
theorem deinit_null_priv_noop (now : Int) :
    xlnx_kernel_deinit now none = ⟨true, none, none, none⟩ := rfl

/-- C10: once the declared count parses as an integer, `readlabel` has
already stored it in the context's `max_labels` field; a later validation
failure returns the error result without undoing that write. -/
theorem readlabel_max_labels_side_effect (kpriv : ivas_xkpriv) (root : Json) (n : Int)
    (hc : json_object_get root "num-labels" = some (.int n))
    (_he : (readlabel kpriv (some root)).2 = .err) :
    (readlabel kpriv (some root)).1.max_labels = toUInt32 n := by
  simp only [readlabel, hc, json_is_integer, json_integer_value, not_true,
    ite_false]
  cases hk : json_object_get root "labels" with
  | none => simp
  | some karray =>
    dsimp only
    split_ifs <;> simp

/-- C10 witness: a resource declaring three labels but carrying no
`labels` array fails, yet leaves `max_labels = 3` behind. -/
theorem readlabel_max_labels_side_effect_witness :
    (readlabel kpriv0 (some c10root)).2 = .err
    ∧ (readlabel kpriv0 (some c10root)).1.max_labels = toUInt32 3 :=
  ⟨rfl, readlabel_max_labels_side_effect kpriv0 c10root 3 rfl rfl⟩

/-- Frame processing after model selection does not change the active
model. -/
@[simp] theorem startRest_model (tA tB tC : Int) (frame : Frame)
    (kpriv : ivas_xkpriv) (c p : Nat) :
    (startRest tA tB tC frame kpriv c p).1.model = kpriv.model := by
  unfold startRest
  split_ifs <;> simp

/-- Frame processing after model selection does not change the label
table. -/
@[simp] theorem startRest_labelptr (tA tB tC : Int) (frame : Frame)
    (kpriv : ivas_xkpriv) (c p : Nat) :
    (startRest tA tB tC frame kpriv c p).1.labelptr = kpriv.labelptr := by
  unfold startRest
  split_ifs <;> simp

/-- Frame processing after model selection does not change the cache. -/
@[simp] theorem startRest_mlist (tA tB tC : Int) (frame : Frame)
    (kpriv : ivas_xkpriv) (c p : Nat) :
    (startRest tA tB tC frame kpriv c p).1.mlist = kpriv.mlist := by
  unfold startRest
  split_ifs <;> simp

/-- Frame processing after model selection allocates no model. -/
@[simp] theorem startRest_nextId (tA tB tC : Int) (frame : Frame)
    (kpriv : ivas_xkpriv) (c p : Nat) :
    (startRest tA tB tC frame kpriv c p).1.nextId = kpriv.nextId := by
  unfold startRest
  split_ifs <;> simp

/-- Frame processing after model selection performs no disk probes of its
own: the count passes through. -/
@[simp] theorem startRest_diskChecks (tA tB tC : Int) (frame : Frame)
    (kpriv : ivas_xkpriv) (c p : Nat) :
    (startRest tA tB tC frame kpriv c p).2.diskChecks = c := by
  unfold startRest
  split_ifs <;> simp

/-- Frame processing after model selection parses no labels: the count
passes through. -/
@[simp] theorem startRest_labelParses (tA tB tC : Int) (frame : Frame)
    (kpriv : ivas_xkpriv) (c p : Nat) :
    (startRest tA tB tC frame kpriv c p).2.labelParses = p := by
  unfold startRest
  split_ifs <;> simp

/-- `readlabel` does not touch the runtime cache. -/
theorem readlabel_mlist (kpriv : ivas_xkpriv) (root : Option Json) :
    (readlabel kpriv root).1.mlist = kpriv.mlist := by
  cases root with
  | none => rfl
  | some root =>
    simp only [readlabel]
    split_ifs
    · cases json_object_get root "labels" with
      | none => rfl
      | some karray =>
        dsimp only
        split_ifs <;> rfl
    · rfl

/-- `readlabel` does not allocate models. -/
theorem readlabel_nextId (kpriv : ivas_xkpriv) (root : Option Json) :
    (readlabel kpriv root).1.nextId = kpriv.nextId := by
  cases root with
  | none => rfl
  | some root =>
    simp only [readlabel]
    split_ifs
    · cases json_object_get root "labels" with
      | none => rfl
      | some karray =>
        dsimp only
        split_ifs <;> rfl
    · rfl

/-- The factory tail (dispatch and label-requirement check) does not
touch the cache. -/
theorem initmodelTail_mlist (env : Env) (kpriv : ivas_xkpriv) (c : Int) (p : Nat) :
    (ivas_xinitmodelTail env kpriv c p).kpriv.mlist = kpriv.mlist := by
  unfold ivas_xinitmodelTail
  dsimp only
  split_ifs <;> rfl

/-- `ivas_xinitmodel` never touches the cache list: entries are appended
only by the caller. -/
theorem ivas_xinitmodel_mlist (env : Env) (kpriv : ivas_xkpriv) (c : Int) :
    (ivas_xinitmodel env kpriv c).kpriv.mlist = kpriv.mlist := by
  unfold ivas_xinitmodel
  dsimp only
  split_ifs with h
  · split
    · exact readlabel_mlist _ _
    · rw [initmodelTail_mlist]
      exact readlabel_mlist _ _
    · rw [initmodelTail_mlist]
      exact readlabel_mlist _ _
  · rw [initmodelTail_mlist]

/-- The cache-hit path of `xlnx_kernel_start`: the cached model and label
table are installed unchanged, the cache and allocation counter are
untouched, no label file is parsed, and the disk probes are exactly the
per-frame `modelexits` probes. -/
theorem start_hit_spec (env : Env) (tA tB tC : Int) (frame : Frame)
    (kpriv : ivas_xkpriv) (meta : InpMeta) (entry : model_list)
    (hrt : kpriv.run_time_model = true)
    (hm : frame.meta = some meta)
    (hfind : mlistFind kpriv.mlist meta.ml_class meta.model_name = some entry)
    (hres : (modelexits env.fs { kpriv with
        modelclass := meta.ml_class, modelname := meta.model_name }).1 ≠ "") :
    (xlnx_kernel_start env tA tB tC frame kpriv).1.model = some entry.model
    ∧ (xlnx_kernel_start env tA tB tC frame kpriv).1.labelptr = entry.labelptr
    ∧ (xlnx_kernel_start env tA tB tC frame kpriv).1.mlist = kpriv.mlist
    ∧ (xlnx_kernel_start env tA tB tC frame kpriv).1.nextId = kpriv.nextId
    ∧ (xlnx_kernel_start env tA tB tC frame kpriv).2.labelParses = 0
    ∧ (xlnx_kernel_start env tA tB tC frame kpriv).2.diskChecks =
        (modelexits env.fs { kpriv with
          modelclass := meta.ml_class, modelname := meta.model_name }).2 := by
  unfold xlnx_kernel_start
  rw [if_pos hrt, hm]
  dsimp only
  rw [if_neg hres, hfind]
  dsimp only
  simp

/-- A single `xlnx_kernel_start` call preserves key-distinctness of the
runtime cache: on a hit nothing is appended; on a miss the appended key
was absent. -/
theorem start_preserves_distinct (env : Env) (tA tB tC : Int) (frame : Frame)
    (kpriv : ivas_xkpriv) (h : distinctKeys kpriv.mlist) :
    distinctKeys (xlnx_kernel_start env tA tB tC frame kpriv).1.mlist := by
  unfold xlnx_kernel_start
  by_cases hrt : kpriv.run_time_model = true
  · rw [if_pos hrt]
    cases hm : frame.meta with
    | none => exact h
    | some meta =>
      dsimp only
      by_cases he : (modelexits env.fs { kpriv with
          modelclass := meta.ml_class, modelname := meta.model_name }).1 = ""
      · rw [if_pos he]
        exact h
      · rw [if_neg he]
        cases hf : mlistFind kpriv.mlist meta.ml_class meta.model_name with
        | some entry =>
          dsimp only
          rw [startRest_mlist]
          exact h
        | none =>
          dsimp only
          split
          · rw [ivas_xinitmodel_mlist]
            exact h
          · rw [ivas_xinitmodel_mlist]
            exact h
          · rw [startRest_mlist]
            dsimp only
            rw [ivas_xinitmodel_mlist]
            unfold distinctKeys
            rw [List.pairwise_append]
            refine ⟨h, List.pairwise_singleton _ _, ?_⟩
            intro a ha b hb
            rw [List.mem_singleton] at hb
            subst hb
            have := List.find?_eq_none.mp hf a ha
            simpa using this
  · rw [if_neg hrt, startRest_mlist]
    exact h

/-- A successful artifact resolution has probed the disk at least twice
(the prototxt and at least the xmodel). -/
theorem modelexits_min_checks (fs : String → Bool) (kpriv : ivas_xkpriv)
    (h : (modelexits fs kpriv).1 ≠ "") : 2 ≤ (modelexits fs kpriv).2 := by
  unfold modelexits at h ⊢
  dsimp only at h ⊢
  split_ifs at h ⊢ <;> simp_all

/-- C1: the runtime cache lookup matches exactly on both the class id and
the name; a pair already cached is served with the identical previously
constructed model instance and its label table, with no reconstruction;
and after any sequence of start calls the cache keeps at most one entry
per distinct (classId, name) pair. -/
theorem runtime_cache_invariants (env : Env) :
    (∀ (l : List model_list) (c : Int) (n : String) (e : model_list),
        mlistFind l c n = some e → e.modelclass = c ∧ e.modelname = n)
    ∧ (∀ (tA tB tC : Int) (frame : Frame) (kpriv : ivas_xkpriv)
        (meta : InpMeta) (entry : model_list),
        kpriv.run_time_model = true → frame.meta = some meta →
        mlistFind kpriv.mlist meta.ml_class meta.model_name = some entry →
        (modelexits env.fs { kpriv with
          modelclass := meta.ml_class, modelname := meta.model_name }).1 ≠ "" →
        (xlnx_kernel_start env tA tB tC frame kpriv).1.model = some entry.model
        ∧ (xlnx_kernel_start env tA tB tC frame kpriv).1.labelptr = entry.labelptr
        ∧ (xlnx_kernel_start env tA tB tC frame kpriv).1.mlist = kpriv.mlist
        ∧ (xlnx_kernel_start env tA tB tC frame kpriv).1.nextId = kpriv.nextId)
    ∧ (∀ (calls : List StartCall) (kpriv : ivas_xkpriv),
        distinctKeys kpriv.mlist →
        distinctKeys (startSeq env calls kpriv).mlist) := by
  refine ⟨?_, ?_, ?_⟩
  · intro l c n e hf
    have := List.find?_some hf
    simpa using this
  · intro tA tB tC frame kpriv meta entry hrt hm hfind hres
    obtain ⟨h1, h2, h3, h4, _, _⟩ :=
      start_hit_spec env tA tB tC frame kpriv meta entry hrt hm hfind hres
    exact ⟨h1, h2, h3, h4⟩
  · intro calls
    induction calls with
    | nil => intro kpriv h; exact h
    | cons cal rest ih =>
      intro kpriv h
      exact ih _ (start_preserves_distinct env cal.tA cal.tB cal.tC cal.frame kpriv h)

/-- C1 witness: the hit fixture — the cached `(0, "n")` pair is served
with instance 0, the cache is unchanged and nothing is allocated. -/
theorem runtime_cache_invariants_witness :
    kprivH.run_time_model = true
    ∧ (xlnx_kernel_start envH 0 0 0 frameH kprivH).1.model = some ⟨0⟩
    ∧ (xlnx_kernel_start envH 0 0 0 frameH kprivH).1.mlist = kprivH.mlist
    ∧ (xlnx_kernel_start envH 0 0 0 frameH kprivH).1.nextId = kprivH.nextId :=
  ⟨rfl,
   ((runtime_cache_invariants envH).2.1 0 0 0 frameH kprivH ⟨0, "n"⟩
      ⟨0, "n", ⟨0⟩, none⟩ rfl rfl rfl (by decide)).1,
   ((runtime_cache_invariants envH).2.1 0 0 0 frameH kprivH ⟨0, "n"⟩
      ⟨0, "n", ⟨0⟩, none⟩ rfl rfl rfl (by decide)).2.2.1,
   ((runtime_cache_invariants envH).2.1 0 0 0 frameH kprivH ⟨0, "n"⟩
      ⟨0, "n", ⟨0⟩, none⟩ rfl rfl rfl (by decide)).2.2.2⟩

/-- C2 counterexample: a frame whose pair is already cached (served with
the cached instance 0, cache and allocation counter unchanged) still
performs 2 artifact-existence probes on disk before the lookup, so the
"no disk check on a cache hit" part of the claim is false. -/
theorem cache_hit_still_probes_disk :
    (xlnx_kernel_start envH 0 0 0 frameH kprivH).1.model = some ⟨0⟩
    ∧ (xlnx_kernel_start envH 0 0 0 frameH kprivH).1.mlist = kprivH.mlist
    ∧ (xlnx_kernel_start envH 0 0 0 frameH kprivH).1.nextId = kprivH.nextId
    ∧ (xlnx_kernel_start envH 0 0 0 frameH kprivH).2.diskChecks = 2
    ∧ (2 : Nat) ≠ 0 :=
  ⟨rfl, rfl, rfl, rfl, by decide⟩

/-- C2 (amended): on a cache hit the cached model and label table are
returned as-is — no reconstruction and no label-file parsing — but the
artifact-existence probes run on every runtime-mode frame, hits included
(at least two probes), before the cache lookup; in static mode a frame
performs no disk probes and no label parsing at all (those happen only at
init time). -/
theorem cache_hit_reuse_and_probe_policy (env : Env) :
    (∀ (tA tB tC : Int) (frame : Frame) (kpriv : ivas_xkpriv)
        (meta : InpMeta) (entry : model_list),
        kpriv.run_time_model = true → frame.meta = some meta →
        mlistFind kpriv.mlist meta.ml_class meta.model_name = some entry →
        (modelexits env.fs { kpriv with
          modelclass := meta.ml_class, modelname := meta.model_name }).1 ≠ "" →
        (xlnx_kernel_start env tA tB tC frame kpriv).1.model = some entry.model
        ∧ (xlnx_kernel_start env tA tB tC frame kpriv).1.labelptr = entry.labelptr
        ∧ (xlnx_kernel_start env tA tB tC frame kpriv).1.nextId = kpriv.nextId
        ∧ (xlnx_kernel_start env tA tB tC frame kpriv).2.labelParses = 0
        ∧ (xlnx_kernel_start env tA tB tC frame kpriv).2.diskChecks =
            (modelexits env.fs { kpriv with
              modelclass := meta.ml_class, modelname := meta.model_name }).2
        ∧ 2 ≤ (xlnx_kernel_start env tA tB tC frame kpriv).2.diskChecks)
    ∧ (∀ (tA tB tC : Int) (frame : Frame) (kpriv : ivas_xkpriv),
        kpriv.run_time_model = false →
        (xlnx_kernel_start env tA tB tC frame kpriv).2.diskChecks = 0
        ∧ (xlnx_kernel_start env tA tB tC frame kpriv).2.labelParses = 0) := by
  constructor
  · intro tA tB tC frame kpriv meta entry hrt hm hfind hres
    obtain ⟨h1, h2, h3, h4, h5, h6⟩ :=
      start_hit_spec env tA tB tC frame kpriv meta entry hrt hm hfind hres
    refine ⟨h1, h2, h4, h5, h6, ?_⟩
    rw [h6]
    exact modelexits_min_checks env.fs _ hres
  · intro tA tB tC frame kpriv hrt
    unfold xlnx_kernel_start
    rw [if_neg (by simp [hrt])]
    simp

/-- C2 witness: the amended statement at the hit fixture — instance 0 is
reused, no label parse happens, and exactly the two `modelexits` probes
run; and a static-mode frame performs none. -/
theorem cache_hit_reuse_and_probe_policy_witness :
    (xlnx_kernel_start envH 0 0 0 frameH kprivH).2.labelParses = 0
    ∧ 2 ≤ (xlnx_kernel_start envH 0 0 0 frameH kprivH).2.diskChecks
    ∧ (xlnx_kernel_start envH 0 0 0 frameF kprivP).2.diskChecks = 0 :=
  ⟨((cache_hit_reuse_and_probe_policy envH).1 0 0 0 frameH kprivH ⟨0, "n"⟩
      ⟨0, "n", ⟨0⟩, none⟩ rfl rfl rfl (by decide)).2.2.2.1,
   ((cache_hit_reuse_and_probe_policy envH).1 0 0 0 frameH kprivH ⟨0, "n"⟩
      ⟨0, "n", ⟨0⟩, none⟩ rfl rfl rfl (by decide)).2.2.2.2.2,
   ((cache_hit_reuse_and_probe_policy envH).2 0 0 0 frameF kprivP rfl).1⟩

/-- C8: in both the final report (deinit) and the rolling report (start),
a computed throughput strictly below 9.995 is printed with three decimal
digits and one at or above 9.995 with two; a zero elapsed interval makes
the printed value the 999.99 sentinel rather than a division by zero. -/
theorem fps_report_formatting (now tB tC : Int) (kpriv : ivas_xkpriv)
    (ptest : Bool) (pf : ivas_perf) (q1 q2 : ℚ) (d1 d2 : Nat)
    (h1 : (xlnx_kernel_deinit now (some kpriv)).printed = some (q1, d1))
    (h2 : (perf_update tB tC ptest pf).2 = some (q2, d2)) :
    ((q1 < 9995 / 1000 ↔ d1 = 3) ∧ (¬ q1 < 9995 / 1000 ↔ d1 = 2)
      ∧ (now - kpriv.pf.timer_start = 0 → q1 = 99999 / 100))
    ∧ ((q2 < 9995 / 1000 ↔ d2 = 3) ∧ (¬ q2 < 9995 / 1000 ↔ d2 = 2)
      ∧ (tC - pf.last_displayed_time = 0 → q2 = 99999 / 100)) := by
  constructor
  · simp only [xlnx_kernel_deinit] at h1
    split_ifs at h1 with hb hpos hlt hlt2
    · rw [Option.some.injEq, Prod.mk.injEq] at h1
      obtain ⟨hq, hd⟩ := h1
      subst hq; subst hd
      exact ⟨iff_of_true hlt rfl, iff_of_false (not_not_intro hlt) (by decide),
        fun hz => absurd hpos (by rw [hz]; norm_num)⟩
    · rw [Option.some.injEq, Prod.mk.injEq] at h1
      obtain ⟨hq, hd⟩ := h1
      subst hq; subst hd
      exact ⟨iff_of_false hlt (by decide), iff_of_true hlt rfl,
        fun hz => absurd hpos (by rw [hz]; norm_num)⟩
    · exact absurd hlt2 (by norm_num)
    · rw [Option.some.injEq, Prod.mk.injEq] at h1
      obtain ⟨hq, hd⟩ := h1
      subst hq; subst hd
      exact ⟨iff_of_false (by norm_num) (by decide), iff_of_true (by norm_num) rfl,
        fun _ => rfl⟩
  · simp only [perf_update] at h2
    split_ifs at h2 with hb hthr hpos hlt hlt2
    · dsimp only at h2
      rw [Option.some.injEq, Prod.mk.injEq] at h2
      obtain ⟨hq, hd⟩ := h2
      subst hq; subst hd
      exact ⟨iff_of_true hlt rfl, iff_of_false (not_not_intro hlt) (by decide),
        fun hz => absurd hpos (by rw [hz]; norm_num)⟩
    · dsimp only at h2
      rw [Option.some.injEq, Prod.mk.injEq] at h2
      obtain ⟨hq, hd⟩ := h2
      subst hq; subst hd
      exact ⟨iff_of_false hlt (by decide), iff_of_true hlt rfl,
        fun hz => absurd hpos (by rw [hz]; norm_num)⟩
    · exact absurd hlt2 (by norm_num)
    · dsimp only at h2
      rw [Option.some.injEq, Prod.mk.injEq] at h2
      obtain ⟨hq, hd⟩ := h2
      subst hq; subst hd
      exact ⟨iff_of_false (by norm_num) (by decide), iff_of_true (by norm_num) rfl,
        fun _ => rfl⟩

/-- C8 witness: a zero-elapsed final report prints the sentinel with two
decimals, and a rolling report computing 1.0 fps prints three decimals. -/
theorem fps_report_formatting_witness :
    (xlnx_kernel_deinit 7 (some kprivD)).printed = some (99999 / 100, 2)
    ∧ (perf_update 1000000 1000000 true pfStarted).2 = some (1, 3)
    ∧ ((1 : ℚ) < 9995 / 1000 ↔ (3 : Nat) = 3)
    ∧ ((7 : Int) - kprivD.pf.timer_start = 0 → (99999 / 100 : ℚ) = 99999 / 100) := by
  have hd : (xlnx_kernel_deinit 7 (some kprivD)).printed = some (99999 / 100, 2) := by
    simp only [xlnx_kernel_deinit, kprivD, kprivP]
    norm_num
  have hu : (perf_update 1000000 1000000 true pfStarted).2 = some (1, 3) := by
    simp only [perf_update, pfStarted]
    norm_num
  exact ⟨hd, hu,
    (fps_report_formatting 7 1000000 1000000 kprivD true pfStarted
      (99999 / 100) 1 2 3 hd hu).2.1,
    (fps_report_formatting 7 1000000 1000000 kprivD true pfStarted
      (99999 / 100) 1 2 3 hd hu).1.2.2⟩

/-- The telemetry tail increments the frame counter exactly once whenever
the test is running, in both the display and the non-display branch. -/
theorem perf_update_frames (tB tC : Int) (pf : ivas_perf)
    (h : pf.test_started = true) :
    (perf_update tB tC true pf).1.frames = pf.frames + 1 := by
  unfold perf_update
  rw [if_pos (by simp [h])]
  dsimp only
  split_ifs <;> rfl

/-- C7 counterexample: with telemetry active, a frame whose model run
reports failure (status -1) still increments the frame counter (5 → 6),
contrary to "incremented only for successfully processed frames". -/
theorem frames_incremented_on_failed_run :
    frameF.runOk = false
    ∧ (xlnx_kernel_start envH 0 0 0 frameF kprivP).2.status = -1
    ∧ (xlnx_kernel_start envH 0 0 0 frameF kprivP).1.pf.frames = kprivP.pf.frames + 1 :=
  ⟨rfl, rfl, rfl⟩

/-- C7 (amended): with telemetry enabled, the frame counter is
incremented exactly once per frame that reaches the model-run step,
regardless of the run outcome; and deinit resets every performance
counter to zero after the final report. -/
theorem perf_frames_amended (env : Env) (tA tB tC now : Int) (frame : Frame)
    (kpriv kpriv2 : ivas_xkpriv)
    (hrt : kpriv.run_time_model = false)
    (hp : kpriv.performance_test = true)
    (hm : frame.addMetaOk = true)
    (hf : frame.fmt = IVAS_VFMT_BGR8 ∨ frame.fmt = IVAS_VFMT_RGB8) :
    (xlnx_kernel_start env tA tB tC frame kpriv).1.pf.frames = kpriv.pf.frames + 1
    ∧ (xlnx_kernel_deinit now (some kpriv2)).pf_after_reset = some perfZero := by
  constructor
  · simp only [xlnx_kernel_start, hrt, Bool.false_eq_true, if_false]
    unfold startRest
    rw [if_neg (by simp [hm]), if_neg (by rcases hf with h | h <;> simp [h])]
    dsimp only
    rw [hp]
    by_cases hs : kpriv.pf.test_started = true
    · rw [if_neg (by simp [hs])]
      exact perf_update_frames tB tC kpriv.pf hs
    · rw [if_pos (by simp [hs])]
      exact perf_update_frames tB tC _ rfl
  · rfl

/-- C7 witness: the amended increment at the failed-run fixture, plus the
deinit reset. -/
theorem perf_frames_amended_witness :
    (xlnx_kernel_start envH 0 0 0 frameF kprivP).1.pf.frames = kprivP.pf.frames + 1
    ∧ (xlnx_kernel_deinit 0 (some kprivP)).pf_after_reset = some perfZero :=
  perf_frames_amended envH 0 0 0 0 frameF kprivP kprivP rfl rfl rfl (Or.inl rfl)

end VVAS
